import Mathlib

/-!
Verification of the worktreeflow git workflow manager
(src/worktreeflow/wtf.py) against its natural-language specification.

Python strings are modelled as `List Char`; the regular-expression checks of
the validators are modelled character class by character class, following the
source patterns.  The git repository is modelled abstractly: commits are
identifiers, reachability is an abstract boolean relation carried in the
state, and every mutating git call the engine executes is recorded in an
effect trace, in execution order.
-/

namespace Worktreeflow

/-- Characters matched by the Python regex class backslash-s
(space, tab, newline, carriage return, vertical tab, form feed). -/
def isPySpace (c : Char) : Bool :=
  c == ' ' || c == '\t' || c == '\n' || c == '\r' || c == '\x0b' || c == '\x0c'

/-- Python str.strip(): drop leading and trailing whitespace. -/
def pyStrip (l : List Char) : List Char :=
  ((l.dropWhile isPySpace).reverse.dropWhile isPySpace).reverse

/-- Python str.startswith, on the character-list model. -/
def startsWithL (pre s : List Char) : Bool := pre.isPrefixOf s

/-- Python str.endswith, on the character-list model. -/
def endsWithL (suf s : List Char) : Bool := suf.reverse.isPrefixOf s.reverse

/-- Python substring containment (the `in` operator / re.search of a literal). -/
def containsL (needle s : List Char) : Bool :=
  s.tails.any (fun t => needle.isPrefixOf t)

/-- Characters rejected by validate_branch_name, from the source pattern
matching whitespace, tilde, caret, colon, question mark, star and
opening square bracket. -/
def branchInvalidChar (c : Char) : Bool :=
  isPySpace c || c == '~' || c == '^' || c == ':' || c == '?' || c == '*' || c == '['

/-- Characters rejected by validate_slug, from the source pattern matching
tilde, caret, colon, question mark, star, both square brackets and
backslash. -/
def slugInvalidChar (c : Char) : Bool :=
  c == '~' || c == '^' || c == ':' || c == '?' || c == '*' || c == '[' || c == ']' || c == '\\'

/-- The needle ".." of the consecutive-dots check. -/
def dotdotL : List Char := ['.', '.']

/-- The needle "/" of the leading and trailing slash checks. -/
def slashL : List Char := ['/']

/-- The needle ".lock" of the lock-suffix check. -/
def lockL : List Char := ['.', 'l', 'o', 'c', 'k']

/-- The opening-brace character. -/
def braceChar : Char := Char.ofNat 123

/-- The needle of the at-brace sequence check. -/
def atBraceL : List Char := ['@', braceChar]

/-- The literal HEAD, rejected as a branch name. -/
def headL : List Char := ['H', 'E', 'A', 'D']

/-- SafetyValidator.validate_branch_name: true iff the name passes every
check of the source (invalid characters, consecutive dots, leading or
trailing slash, lock suffix, at-brace sequence, empty, literal HEAD).
The source raises ValueError at the first failing check; validity is
modelled as the conjunction of all checks. -/
def validate_branch_name (branch : List Char) : Bool :=
  !(branch.any branchInvalidChar) &&
  !(containsL dotdotL branch) &&
  !(startsWithL slashL branch || endsWithL slashL branch) &&
  !(endsWithL lockL branch) &&
  !(containsL atBraceL branch) &&
  !(branch.isEmpty || branch == headL)

/-- SafetyValidator.validate_slug: none models a raised ValueError, some
returns the cleaned slug.  The emptiness test runs before stripping,
exactly as in the source. -/
def validate_slug (slug : List Char) : Option (List Char) :=
  if slug.isEmpty then none
  else
    let slug := pyStrip slug
    if slug.any isPySpace then none
    else if slug.any slugInvalidChar then none
    else some slug

/-- The branch-name derivation of the source: branch_name = "feat/" + slug. -/
def featLead : List Char := ['f', 'e', 'a', 't', '/']

/-- Derived feature branch name for a cleaned slug. -/
def featBranch (slug : List Char) : List Char := featLead ++ slug

/-! ## Abstract git model

Commits are abstract identifiers.  Reachability between commits is an
abstract boolean relation carried in the state: `anc a b` reads "the commit
a is an ancestor of (reachable from, inclusively) the commit b".  Under the
usual closure properties of reachability, the commit range "x..y" that
iter_commits and rev-list enumerate is non-empty exactly when the tip y is
not reachable from x; the model uses that characterisation directly. -/

abbrev Commit := Nat

/-- How a push is issued: a plain push, a force-with-lease conditional push
(GitPython force_with_lease / git push --force-with-lease), or an
unconditional force push (GitPython force=True / git push --force). -/
inductive PushMode
  | plain
  | forceWithLease
  | force
deriving DecidableEq

/-- One executed mutating git call.  Read-only queries (status, rev-list,
ls-remote, gh pr list) are not effects and are not recorded.  In dry-run
mode the source only logs commands without running them, so dry-run adds
nothing to the trace. -/
inductive Eff
  | fetch (remote : String)
  | checkout (branch : String)
  | createBranch (name : String) (tip : Commit)
  | resetHard (branch : String) (tip : Commit)
  | push (remote : String) (refspec : String) (mode : PushMode)
  | stashPush
  | stashPop
  | rebaseOp
  | mergeOp
  | removeWorktree (forced : Bool)
  | deleteLocalBranch (name : String) (forced : Bool)
  | deleteRemoteBranch (name : String)
  | pruneRemote
  | pruneWorktree
deriving DecidableEq

/-- Discriminator: is the effect a branch creation? -/
def isCreateBranchEff : Eff → Bool
  | .createBranch _ _ => true
  | _ => false

/-- Discriminator: is the effect a hard reset? -/
def isResetEff : Eff → Bool
  | .resetHard _ _ => true
  | _ => false

/-- Discriminator: is the effect a push? -/
def isPushEff : Eff → Bool
  | .push _ _ _ => true
  | _ => false

/-- Discriminator: is the effect a force-with-lease push? -/
def isLeasePushEff : Eff → Bool
  | .push _ _ .forceWithLease => true
  | _ => false

/-- Discriminator: is the effect a stash pop? -/
def isStashPopEff : Eff → Bool
  | .stashPop => true
  | _ => false

/-- Discriminator: is the effect a stash push? -/
def isStashPushEff : Eff → Bool
  | .stashPush => true
  | _ => false

/-- Discriminator: is the effect a rebase or a merge? -/
def isRewriteEff : Eff → Bool
  | .rebaseOp => true
  | .mergeOp => true
  | _ => false

/-- Discriminator: does the effect delete something (worktree removal, local
branch deletion, remote branch deletion)? -/
def isDeletionEff : Eff → Bool
  | .removeWorktree _ => true
  | .deleteLocalBranch _ _ => true
  | .deleteRemoteBranch _ => true
  | _ => false

/-- How a command invocation ends: normal return, sys.exit(1), or an
uncaught Python exception (also a non-zero process exit). -/
inductive Outcome
  | ok
  | exit1
  | raised
deriving DecidableEq

/-- Result of running one command: its outcome, the final repository state,
the executed git effects in order, and the bash-equivalent command lines the
source logs (recorded only where a claim refers to them). -/
structure RunResult (σ : Type) where
  outcome : Outcome
  state : σ
  trace : List Eff
  logs : List String := []

/-- Repository state observed and mutated by the sync engine, for one base
branch.  The two dirty flags split repo.is_dirty(): is_dirty() sees only
tracked modifications, is_dirty(untracked_files=True) sees both. -/
structure GitState where
  dirtyTracked : Bool
  dirtyUntracked : Bool
  currentBranch : Option String
  baseExists : Bool
  baseTip : Commit
  upstreamTrack : Commit
  upstreamTrackExists : Bool
  originTrack : Commit
  originTrackExists : Bool
  upstreamRemote : Commit
  originRemote : Commit
  anc : Commit → Commit → Bool

/-- The range "a..b" (commits reachable from the tip b but not from the tip
a) is non-empty iff b is not reachable from a. -/
def revListNonempty (anc : Commit → Commit → Bool) (a b : Commit) : Bool :=
  !(anc b a)

/-- SafetyValidator.check_uncommitted_changes: with is_dirty(untracked_files
=True) dirty and stash requested, stashes and reports true; dirty without
stash raises GitCommandError (modelled as error); clean reports false. -/
def check_uncommitted_changes (s : GitState) (stash : Bool) :
    Except Unit (Bool × GitState × List Eff) :=
  if s.dirtyTracked || s.dirtyUntracked then
    if stash then
      .ok (true, { s with dirtyTracked := false, dirtyUntracked := false }, [Eff.stashPush])
    else .error ()
  else .ok (false, s, [])

/-- GitWorkflowManager.sync_main.  The confirm argument of the source is
unused by the source body and is omitted.  Local ref reads assume the
remote-tracking refs resolve after a successful fetch; the early
already-up-to-date return sits in a try block that the source skips when the
local base branch is missing, in which case the later checkout raises.
Push results are recorded in the trace only: no claim depends on the remote
state after a push. -/
def sync_main (s : GitState) (base : String) (dryRun : Bool) : RunResult GitState :=
  -- check_uncommitted_changes(self.repo, stash=False): raises when dirty
  match check_uncommitted_changes s false with
  | .error _ => { outcome := .raised, state := s, trace := [] }
  | .ok (_, s, _) =>
    -- git fetch upstream
    let s1 := if dryRun then s else { s with upstreamTrack := s.upstreamRemote }
    let t1 : List Eff := if dryRun then [] else [Eff.fetch "upstream"]
    -- new_commits = iter_commits(base..upstream/base); empty means return
    if !dryRun && s1.baseExists && !(revListNonempty s1.anc s1.baseTip s1.upstreamTrack) then
      { outcome := .ok, state := s1, trace := t1 }
    else if !dryRun && !s1.baseExists then
      -- self.repo.heads[base] raises IndexError
      { outcome := .raised, state := s1, trace := t1 }
    else
      -- git switch base
      let s2 := if dryRun then s1 else { s1 with currentBranch := some base }
      let t2 := if dryRun then t1 else t1 ++ [Eff.checkout base]
      if dryRun then
        -- every remaining step is dry-run guarded
        { outcome := .ok, state := s2, trace := t2 }
      else if !(s2.anc s2.baseTip s2.upstreamTrack) then
        -- merge_base(head, upstream) differs from head: raise, caught, exit 1
        { outcome := .exit1, state := s2, trace := t2 }
      else
        -- head.reset(upstream, index=True, working_tree=True)
        let s3 := { s2 with baseTip := s2.upstreamTrack }
        let t3 := t2 ++ [Eff.resetHard base s2.upstreamTrack]
        -- git push origin base
        { outcome := .ok, state := s3, trace := t3 ++ [Eff.push "origin" base .plain] }

/-- Tail of GitWorkflowManager.sync_main_force after the confirmation gate
and the branch switch: the dirty gate, backup creation, fetch, hard reset
and push.  tr and lg carry the trace and log lines accumulated so far. -/
def sync_main_force_mutating (s : GitState) (base ts : String)
    (force dryRun : Bool) (tr : List Eff) (lg : List String) : RunResult GitState :=
  -- if self.repo.is_dirty() and not force: exit 1 (tracked changes only)
  if s.dirtyTracked && !force then
    { outcome := .exit1, state := s, trace := tr, logs := lg }
  else
    -- git branch backup/{base}-{timestamp}, created at the current HEAD,
    -- which is the pre-reset tip of base after the switch above
    let backupName := "backup/" ++ base ++ "-" ++ ts
    let lg := lg ++ ["git branch " ++ backupName]
    let tr := if dryRun then tr else tr ++ [Eff.createBranch backupName s.baseTip]
    -- git fetch upstream
    let lg := lg ++ ["git fetch upstream"]
    let s1 := if dryRun then s else { s with upstreamTrack := s.upstreamRemote }
    let tr := if dryRun then tr else tr ++ [Eff.fetch "upstream"]
    -- git reset --hard upstream/{base}: tracked changes and index are
    -- discarded; untracked files survive a hard reset
    let lg := lg ++ ["git reset --hard upstream/" ++ base]
    let s2 := if dryRun then s1
              else { s1 with baseTip := s1.upstreamTrack, dirtyTracked := false }
    let tr := if dryRun then tr else tr ++ [Eff.resetHard base s1.upstreamTrack]
    -- the source logs a force-with-lease push but executes
    -- remote("origin").push(f"{base}:{base}", force=True), i.e. --force
    let lg := lg ++ ["git push --force-with-lease origin " ++ base]
    let tr := if dryRun then tr
              else tr ++ [Eff.push "origin" (base ++ ":" ++ base) .force]
    { outcome := .ok, state := s2, trace := tr, logs := lg }

/-- GitWorkflowManager.sync_main_force.  The logs field records the
bash-equivalent lines the source prints for the mutating steps, verbatim
from the format strings of the source; in particular the push step logs a
force-with-lease command while the executed call is an unconditional force
push.  The timestamp of the backup branch name is taken as an argument. -/
def sync_main_force (s : GitState) (base ts : String)
    (confirm force dryRun : Bool) : RunResult GitState :=
  if !confirm then
    -- shows the commits that would be lost, then exits
    { outcome := .exit1, state := s, trace := [],
      logs := ["git log --oneline upstream/" ++ base ++ ".." ++ base] }
  else
    -- switch to base when not already on it
    if s.currentBranch = some base then
      sync_main_force_mutating s base ts force dryRun [] []
    else if !dryRun && !s.baseExists then
      -- self.repo.heads[base] raises IndexError
      { outcome := .raised, state := s, trace := [],
        logs := ["git switch " ++ base] }
    else
      let s1 := if dryRun then s else { s with currentBranch := some base }
      let t1 : List Eff := if dryRun then [] else [Eff.checkout base]
      sync_main_force_mutating s1 base ts force dryRun t1 ["git switch " ++ base]

/-- GitWorkflowManager.zero_ffsync: remote-to-remote fast-forward of the
fork base branch, without a checkout.  The unpushed-commits gate runs only
when the local base branch exists and its iter_commits call resolves (the
source wraps it in try/except-pass, so a missing origin tracking ref skips
the gate); a missing tracking ref then makes the later ref lookups raise,
which the source catches and turns into exit 1 before any push. -/
def zero_ffsync (s : GitState) (base : String) (dryRun : Bool) : RunResult GitState :=
  -- git fetch origin; git fetch upstream
  let s1 := if dryRun then s
            else { s with originTrack := s.originRemote, upstreamTrack := s.upstreamRemote }
  let t1 : List Eff := if dryRun then [] else [Eff.fetch "origin", Eff.fetch "upstream"]
  -- unpushed gate: iter_commits(origin/base..base) non-empty means exit 1
  if !dryRun && s1.baseExists && s1.originTrackExists
      && revListNonempty s1.anc s1.originTrack s1.baseTip then
    { outcome := .exit1, state := s1, trace := t1 }
  -- ref lookups origin/base and upstream/base: an unresolvable ref raises,
  -- is caught, and becomes exit 1
  else if !dryRun && !(s1.originTrackExists && s1.upstreamTrackExists) then
    { outcome := .exit1, state := s1, trace := t1 }
  -- merge_base(origin, upstream) differs from origin: cannot fast-forward
  else if !dryRun && !(s1.anc s1.originTrack s1.upstreamTrack) then
    { outcome := .exit1, state := s1, trace := t1 }
  -- new_commits = iter_commits(origin..upstream) empty: already up-to-date
  else if !dryRun && !(revListNonempty s1.anc s1.originTrack s1.upstreamTrack) then
    { outcome := .ok, state := s1, trace := t1 }
  else if dryRun then
    { outcome := .ok, state := s1, trace := t1 }
  else
    -- git push origin upstream/{base}:{base}
    { outcome := .ok, state := s1,
      trace := t1 ++ [Eff.push "origin" ("upstream/" ++ base ++ ":" ++ base) .plain] }

/-! ## Worktree lifecycle engine -/

/-- Repository state observed by wt_update, for one feature slug and base.
The behind/ahead counts are the rev-list counts against upstream/base after
the fetch; rewriteFails and pushFails are the exit statuses of the rebase or
merge and of the push, which the source inspects via returncode. -/
structure WtState where
  currentBranch : Option String
  worktreeExists : Bool
  behindUpstream : Nat
  aheadUpstream : Nat
  hasUncommitted : Bool
  featureTip : Commit
  rewriteFails : Bool
  pushFails : Bool

/-- GitWorkflowManager.wt_update.  Every shelled-out command runs through
logger.execute, which in dry-run mode returns a mock success with empty
output, so in dry-run the parsed behind count is 0 and the command returns
at the up-to-date check; the remaining code therefore only executes with
dryRun false and reads the real state fields.  Ref updates performed by the
rebase, merge and push are recorded in the trace; the state is otherwise
left unchanged because no later step of the source reads it. -/
def wt_update (st : WtState) (slug ts : String)
    (stash preview merge noBackup dryRun : Bool) : RunResult WtState :=
  match validate_slug slug.toList with
  | none => { outcome := .raised, state := st, trace := [] }
  | some cl =>
    let branch := String.mk (featBranch cl)
    -- git_dir: "." when on the feature branch, else the worktree path,
    -- else exit 1; the chosen directory does not affect the model
    if st.currentBranch ≠ some branch ∧ st.worktreeExists = false then
      { outcome := .exit1, state := st, trace := [] }
    else
      -- git fetch upstream
      let t0 : List Eff := if dryRun then [] else [Eff.fetch "upstream"]
      -- rev-list counts, parsed as 0 from the dry-run mock output
      let behind := if dryRun then 0 else st.behindUpstream
      let ahead := if dryRun then 0 else st.aheadUpstream
      if behind = 0 then { outcome := .ok, state := st, trace := t0 }
      else if preview then { outcome := .ok, state := st, trace := t0 }
      else
        -- status --porcelain
        if st.hasUncommitted ∧ stash = false then
          { outcome := .exit1, state := st, trace := t0 }
        else
          let stashed := st.hasUncommitted
          let t1 := if st.hasUncommitted then t0 ++ [Eff.stashPush] else t0
          -- git branch backup/{branch}-{timestamp}, only with commits ahead
          let backupName := "backup/" ++ branch ++ "-" ++ ts
          let t2 := if noBackup = false ∧ 0 < ahead then
                      t1 ++ [Eff.createBranch backupName st.featureTip]
                    else t1
          -- git rebase upstream/base, or git merge upstream/base
          let t3 := t2 ++ [if merge then Eff.mergeOp else Eff.rebaseOp]
          if st.rewriteFails then
            -- conflict: exit 1, stash left in place for manual resolution
            { outcome := .exit1, state := st, trace := t3 }
          else
            -- push: plain for merge, force-with-lease for rebase
            let t4 := t3 ++ [Eff.push "origin" branch
                              (if merge then .plain else .forceWithLease)]
            if st.pushFails then
              -- push failed: exit 1 issued before the stash restore
              { outcome := .exit1, state := st, trace := t4 }
            else
              let t5 := if stashed then t4 ++ [Eff.stashPop] else t4
              { outcome := .ok, state := st, trace := t5 }

/-- Repository state observed by wt_clean.  The three Fails flags are the
exit statuses of the worktree removal and the two branch deletions; the
source runs the removal through logger.execute with the default check=True
(failure raises) and the deletions with check=False (result ignored, which
is why the two deletion flags are never read). -/
structure CleanState where
  root : List String
  repoName : String
  cwd : List String
  worktreeExists : Bool
  localBranchExists : Bool
  remoteBranchExists : Bool
  worktreeDirty : Bool
  ghAvailable : Bool
  forkOwnerKnown : Bool
  prExists : Bool
  removeWorktreeFails : Bool
  deleteLocalFails : Bool
  deleteRemoteFails : Bool

/-- GitWorkflowManager._get_worktree_path: root parent, "wt", repo name,
slug, as path segments. -/
def worktreePathOf (st : CleanState) (cl : List Char) : List String :=
  st.root.dropLast ++ ["wt", st.repoName, String.mk cl]

/-- Path.parents membership: a path is among the parents of another exactly
when it is a proper prefix of it, on the segment model. -/
def pathInParents (p cwd : List String) : Bool :=
  p.isPrefixOf cwd && decide (p.length < cwd.length)

/-- Cleanup tail of wt_clean after the worktree-removal step: local branch
deletion, remote branch deletion and the two prunes, all run with
check=False so their exit statuses are ignored. -/
def wt_clean_rest (st : CleanState) (branch : String)
    (forceDelete hasLocal hasRemote dryRun : Bool) (tr : List Eff) : RunResult CleanState :=
  let tr := if hasLocal && !dryRun then tr ++ [Eff.deleteLocalBranch branch forceDelete] else tr
  let tr := if hasRemote && !dryRun then tr ++ [Eff.deleteRemoteBranch branch] else tr
  let tr := if dryRun then tr else tr ++ [Eff.pruneRemote, Eff.pruneWorktree]
  { outcome := .ok, state := st, trace := tr }

/-- GitWorkflowManager.wt_clean.  In global dry-run mode logger.execute
returns a mock success, so the worktree-status read reports clean, the PR
probe is skipped, and the ls-remote probe reports exit 0, which makes the
remote branch count as present; no command is executed.  The only
gate-to-cleanup difference from the source is that read-only probes are not
recorded as effects. -/
def wt_clean (st : CleanState) (slug : String)
    (forceDelete wtForce preview confirm dryRun : Bool) : RunResult CleanState :=
  match validate_slug slug.toList with
  | none => { outcome := .raised, state := st, trace := [] }
  | some cl =>
    let branch := String.mk (featBranch cl)
    let wtPath := worktreePathOf st cl
    let hasWorktree := st.worktreeExists
    let hasLocal := st.localBranchExists
    let hasUncommitted := hasWorktree && !dryRun && st.worktreeDirty
    let hasRemote := if dryRun then true else st.remoteBranchExists
    let hasPR := st.ghAvailable && st.forkOwnerKnown && !dryRun && st.prExists
    if preview then { outcome := .ok, state := st, trace := [] }
    else if hasUncommitted && !wtForce then
      { outcome := .exit1, state := st, trace := [] }
    else if hasPR && !confirm then
      { outcome := .exit1, state := st, trace := [] }
    -- current_dir == worktree_path or worktree_path in current_dir.parents
    else if (st.cwd == wtPath) || pathInParents wtPath st.cwd then
      { outcome := .exit1, state := st, trace := [] }
    else if !confirm && (hasWorktree || hasLocal || hasRemote) then
      { outcome := .exit1, state := st, trace := [] }
    else if hasWorktree then
      -- git worktree remove, via logger.execute with the default check=True:
      -- a non-zero exit raises CalledProcessError, which nothing catches
      if dryRun then wt_clean_rest st branch forceDelete hasLocal hasRemote dryRun []
      else if st.removeWorktreeFails then
        { outcome := .raised, state := st, trace := [Eff.removeWorktree wtForce] }
      else wt_clean_rest st branch forceDelete hasLocal hasRemote dryRun [Eff.removeWorktree wtForce]
    else wt_clean_rest st branch forceDelete hasLocal hasRemote dryRun []

/-! ## Theorems -/

/-- A successful slug validation yields the stripped input, free of
whitespace and of the reserved slug characters. -/
theorem validate_slug_charFacts (s t : List Char) (h : validate_slug s = some t) :
    t.any isPySpace = false ∧ t.any slugInvalidChar = false := by
  unfold validate_slug at h
  split at h
  · exact absurd h (by simp)
  · simp only at h
    split at h
    · exact absurd h (by simp)
    · split at h
      · exact absurd h (by simp)
      · rename_i h1 h2
        cases h
        exact ⟨Bool.eq_false_iff.mpr h1, Bool.eq_false_iff.mpr h2⟩

/-- A character legal in a slug (no whitespace, none of the reserved slug
characters) is legal in a branch name: the branch character class is a
subset of the slug character class together with whitespace. -/
theorem slug_char_branch_ok (c : Char) (h1 : isPySpace c = false)
    (h2 : slugInvalidChar c = false) : branchInvalidChar c = false := by
  unfold slugInvalidChar at h2
  unfold branchInvalidChar
  simp only [Bool.or_eq_false_iff] at h2 ⊢
  exact ⟨⟨⟨⟨⟨⟨h1, h2.1.1.1.1.1.1.1⟩, h2.1.1.1.1.1.1.2⟩, h2.1.1.1.1.1.2⟩,
    h2.1.1.1.1.2⟩, h2.1.1.1.2⟩, h2.1.1.2⟩

/-- C2 (counterexample): the slug a..b passes validate_slug (no whitespace,
no reserved slug character), yet the derived branch name feat/a..b is
rejected by validate_branch_name because of the consecutive-dots rule, so a
valid BranchName is not always derivable from a valid FeatureSlug. -/
theorem slug_dotdot_breaks_branch_validation :
    validate_slug ("a..b".toList) = some ("a..b".toList) ∧
    validate_branch_name (featBranch ("a..b".toList)) = false := by
  constructor <;> decide

/-- C2 (amended): for every string accepted by validate_slug whose derived
branch name feat/slug additionally contains no consecutive dots, does not
end with a slash or with .lock, and contains no at-brace sequence, the
derived branch name is accepted by validate_branch_name.  The character
classes, the leading-slash rule, non-emptiness and the HEAD rule hold for
every accepted slug; the four extra hypotheses are exactly the branch rules
a slug can still violate. -/
theorem validate_slug_featBranch_valid (s t : List Char)
    (h : validate_slug s = some t)
    (h1 : containsL dotdotL (featBranch t) = false)
    (h2 : endsWithL slashL (featBranch t) = false)
    (h3 : endsWithL lockL (featBranch t) = false)
    (h4 : containsL atBraceL (featBranch t) = false) :
    validate_branch_name (featBranch t) = true := by
  obtain ⟨hsp, hiv⟩ := validate_slug_charFacts s t h
  have hany : (featBranch t).any branchInvalidChar = false := by
    unfold featBranch
    rw [List.any_append]
    have h5 : featLead.any branchInvalidChar = false := by decide
    rw [h5, Bool.false_or]
    rw [List.any_eq_false] at hsp hiv ⊢
    intro c hc
    exact Bool.eq_false_iff.mp
      (slug_char_branch_ok c (Bool.eq_false_iff.mpr (hsp c hc))
        (Bool.eq_false_iff.mpr (hiv c hc)))
  have hsw : startsWithL slashL (featBranch t) = false := rfl
  have hne : (featBranch t).isEmpty = false := rfl
  have hhd : (featBranch t == headL) = false := rfl
  unfold validate_branch_name
  rw [hany, h1, hsw, h2, h3, h4, hne, hhd]
  rfl

/-- C2 (witness): the slug issue-42 satisfies every hypothesis of the
amended statement and its derived branch name feat/issue-42 validates. -/
theorem validate_slug_featBranch_valid_witness :
    validate_slug ("issue-42".toList) = some ("issue-42".toList) ∧
    validate_branch_name (featBranch ("issue-42".toList)) = true :=
  ⟨by decide, validate_slug_featBranch_valid ("issue-42".toList) ("issue-42".toList)
    (by decide) (by decide) (by decide) (by decide) (by decide)⟩

/-- Two-commit history for the ahead-only scenario: commit 0 is the root,
commit 1 its child; reachability is equality or the root-child edge. -/
def ancAhead : Commit → Commit → Bool := fun a b => a == b || (a == 0 && b == 1)

/-- Repository where the local base tip (commit 1) is strictly ahead of the
upstream tip (commit 0): the local tip is not an ancestor of the upstream
tip, and the working tree is clean. -/
def sAhead : GitState :=
  { dirtyTracked := false, dirtyUntracked := false,
    currentBranch := some "main", baseExists := true,
    baseTip := 1, upstreamTrack := 0, upstreamTrackExists := true,
    originTrack := 0, originTrackExists := true,
    upstreamRemote := 0, originRemote := 0,
    anc := ancAhead }

/-- C3 (counterexample): in a state where the local base tip is not an
ancestor of the upstream tip, because the local branch is strictly ahead,
sync_main does not take the blockedDiverged error path: it returns
successfully at the already-up-to-date check (the range base..upstream/base
is empty), leaving the base ref unchanged. -/
theorem sync_main_ahead_only_no_error :
    sAhead.anc sAhead.baseTip sAhead.upstreamRemote = false ∧
    (sync_main sAhead "main" false).outcome = Outcome.ok ∧
    (sync_main sAhead "main" false).state.baseTip = sAhead.baseTip := by
  refine ⟨by decide, by decide, by decide⟩

/-- C3 (amended): when the local base tip is not an ancestor of the upstream
tip AND the upstream tip is not an ancestor of the local tip (true
divergence), a clean-tree sync_main run exits with an error on the
blockedDiverged path, the base branch ref is unchanged, and the trace holds
no reset and no push. -/
theorem sync_main_diverged_frame (s : GitState) (base : String)
    (hc1 : s.dirtyTracked = false) (hc2 : s.dirtyUntracked = false)
    (hb : s.baseExists = true)
    (hna : s.anc s.baseTip s.upstreamRemote = false)
    (hnb : s.anc s.upstreamRemote s.baseTip = false) :
    (sync_main s base false).outcome = Outcome.exit1 ∧
    (sync_main s base false).state.baseTip = s.baseTip ∧
    (sync_main s base false).trace.filter isResetEff = [] ∧
    (sync_main s base false).trace.filter isPushEff = [] := by
  simp [sync_main, check_uncommitted_changes, revListNonempty,
    hc1, hc2, hb, hna, hnb, isResetEff, isPushEff]

/-- Three-commit history for a truly diverged scenario: commit 0 is the
root, commits 1 and 2 are separate children of it. -/
def ancDiverged : Commit → Commit → Bool :=
  fun a b => a == b || (a == 0 && (b == 1 || b == 2))

/-- Repository where the local base tip (commit 1) and the upstream tip
(commit 2) have truly diverged from the common root (commit 0). -/
def sDiverged : GitState :=
  { dirtyTracked := false, dirtyUntracked := false,
    currentBranch := some "main", baseExists := true,
    baseTip := 1, upstreamTrack := 2, upstreamTrackExists := true,
    originTrack := 1, originTrackExists := true,
    upstreamRemote := 2, originRemote := 1,
    anc := ancDiverged }

/-- C3 (witness): the amended statement applied to the truly diverged
three-commit repository. -/
theorem sync_main_diverged_frame_witness :
    sDiverged.anc sDiverged.baseTip sDiverged.upstreamRemote = false ∧
    sDiverged.anc sDiverged.upstreamRemote sDiverged.baseTip = false ∧
    ((sync_main sDiverged "main" false).outcome = Outcome.exit1 ∧
     (sync_main sDiverged "main" false).state.baseTip = sDiverged.baseTip ∧
     (sync_main sDiverged "main" false).trace.filter isResetEff = [] ∧
     (sync_main sDiverged "main" false).trace.filter isPushEff = []) :=
  ⟨by decide, by decide,
    sync_main_diverged_frame sDiverged "main" rfl rfl rfl (by decide) (by decide)⟩

/-- C1: a confirmed, clean sync_main_force run on the diverged repository
logs the bash equivalent git push --force-with-lease, but the push it
executes is an unconditional force push (GitPython push with force=True,
i.e. git push --force); no force-with-lease push appears in the executed
trace.  The executed push is therefore not the concurrency-safe conditional
push that both the specification and the commands own logged bash
equivalent describe. -/
theorem sync_main_force_push_unconditional :
    "git push --force-with-lease origin main" ∈
      (sync_main_force sDiverged "main" "20240101-000000" true false false).logs ∧
    Eff.push "origin" "main:main" PushMode.force ∈
      (sync_main_force sDiverged "main" "20240101-000000" true false false).trace ∧
    (sync_main_force sDiverged "main" "20240101-000000" true false false).trace.filter
      isLeasePushEff = [] := by
  refine ⟨by decide, by decide, by decide⟩

/-- C4: every non-dry-run sync_main_force invocation that passes the
confirmation and dirty gates creates exactly one branch, the backup branch
backup/base-timestamp pointing at the pre-reset tip of the base branch, its
creation precedes the hard reset in the executed trace, and the hard reset
to the upstream tip does occur. -/
theorem sync_main_force_backup (s : GitState) (base ts : String) (force : Bool)
    (hb : s.baseExists = true)
    (hd : (s.dirtyTracked && !force) = false) :
    (sync_main_force s base ts true force false).trace.filter isCreateBranchEff
        = [Eff.createBranch ("backup/" ++ base ++ "-" ++ ts) s.baseTip] ∧
    Eff.createBranch ("backup/" ++ base ++ "-" ++ ts) s.baseTip ∈
      ((sync_main_force s base ts true force false).trace.takeWhile
        (fun e => !isResetEff e)) ∧
    (sync_main_force s base ts true force false).trace.filter isResetEff
        = [Eff.resetHard base s.upstreamRemote] := by
  by_cases hcb : s.currentBranch = some base <;>
    simp [sync_main_force, sync_main_force_mutating, hcb, hb, hd,
      isCreateBranchEff, isResetEff]

/-- C4 (witness): the backup statement applied to the diverged repository
with the force flag off. -/
theorem sync_main_force_backup_witness :
    sDiverged.baseExists = true ∧
    (sDiverged.dirtyTracked && !false) = false ∧
    ((sync_main_force sDiverged "main" "20240101-120000" true false false).trace.filter
        isCreateBranchEff
        = [Eff.createBranch ("backup/" ++ "main" ++ "-" ++ "20240101-120000")
            sDiverged.baseTip] ∧
     Eff.createBranch ("backup/" ++ "main" ++ "-" ++ "20240101-120000") sDiverged.baseTip ∈
       ((sync_main_force sDiverged "main" "20240101-120000" true false false).trace.takeWhile
         (fun e => !isResetEff e)) ∧
     (sync_main_force sDiverged "main" "20240101-120000" true false false).trace.filter
        isResetEff = [Eff.resetHard "main" sDiverged.upstreamRemote]) :=
  ⟨rfl, rfl, sync_main_force_backup sDiverged "main" "20240101-120000" false rfl rfl⟩

/-- C10: on a repository whose base branch exists, the sync_main
uncommitted-changes gate raises exactly when the tree is dirty including
untracked files, while the confirmed sync_main_force gate (force flag off)
exits 1 exactly when tracked modifications exist: the two commands use
different definitions of dirtiness, and a tree whose only changes are
untracked files blocks sync_main but passes the force-sync gate. -/
theorem uncommitted_gates_differ (s : GitState) (base ts : String)
    (hb : s.baseExists = true) :
    ((sync_main s base false).outcome = Outcome.raised
        ↔ (s.dirtyTracked || s.dirtyUntracked) = true) ∧
    ((sync_main_force s base ts true false false).outcome = Outcome.exit1
        ↔ s.dirtyTracked = true) := by
  cases h1 : s.dirtyTracked <;> cases h2 : s.dirtyUntracked <;>
    cases ha : s.anc s.upstreamRemote s.baseTip <;>
    cases ha2 : s.anc s.baseTip s.upstreamRemote <;>
    by_cases hcb : s.currentBranch = some base <;>
    simp [sync_main, sync_main_force, sync_main_force_mutating,
      check_uncommitted_changes, revListNonempty, hb, h1, h2, ha, ha2, hcb]

/-- Repository whose only changes are untracked files: is_dirty() is false,
is_dirty(untracked_files=True) is true. -/
def sUntracked : GitState :=
  { dirtyTracked := false, dirtyUntracked := true,
    currentBranch := some "main", baseExists := true,
    baseTip := 0, upstreamTrack := 0, upstreamTrackExists := true,
    originTrack := 0, originTrackExists := true,
    upstreamRemote := 0, originRemote := 0,
    anc := fun a b => a == b }

/-- C10 (witness): the gate characterisation applied to the repository with
only untracked changes; there sync_main raises at its gate and
sync_main_force does not exit at its gate. -/
theorem uncommitted_gates_differ_witness :
    sUntracked.baseExists = true ∧
    sUntracked.dirtyTracked = false ∧ sUntracked.dirtyUntracked = true ∧
    (((sync_main sUntracked "main" false).outcome = Outcome.raised
        ↔ (sUntracked.dirtyTracked || sUntracked.dirtyUntracked) = true) ∧
     ((sync_main_force sUntracked "main" "20240101-000000" true false false).outcome
        = Outcome.exit1 ↔ sUntracked.dirtyTracked = true)) :=
  ⟨rfl, rfl, rfl, uncommitted_gates_differ sUntracked "main" "20240101-000000" rfl⟩

/-- C5: whenever the local base branch exists and has commits not reachable
from the fork remote tracking tip (unpushed commits), a real zero_ffsync
run exits 1 at the unpushed-commits gate and its trace holds no push: only
the two fetches were executed. -/
theorem zero_ffsync_refuses_unpushed (s : GitState) (base : String)
    (hb : s.baseExists = true)
    (ht : s.originTrackExists = true)
    (hu : s.anc s.baseTip s.originRemote = false) :
    (zero_ffsync s base false).outcome = Outcome.exit1 ∧
    (zero_ffsync s base false).trace.filter isPushEff = [] := by
  simp [zero_ffsync, revListNonempty, hb, ht, hu, isPushEff]

/-- Repository whose local base tip (commit 1) has one commit that the fork
remote tip (commit 0) lacks. -/
def sUnpushed : GitState :=
  { dirtyTracked := false, dirtyUntracked := false,
    currentBranch := some "main", baseExists := true,
    baseTip := 1, upstreamTrack := 0, upstreamTrackExists := true,
    originTrack := 0, originTrackExists := true,
    upstreamRemote := 0, originRemote := 0,
    anc := ancAhead }

/-- C5 (witness): the refusal applied to the repository with one unpushed
commit on the local base branch. -/
theorem zero_ffsync_refuses_unpushed_witness :
    sUnpushed.baseExists = true ∧
    sUnpushed.originTrackExists = true ∧
    sUnpushed.anc sUnpushed.baseTip sUnpushed.originRemote = false ∧
    ((zero_ffsync sUnpushed "main" false).outcome = Outcome.exit1 ∧
     (zero_ffsync sUnpushed "main" false).trace.filter isPushEff = []) :=
  ⟨rfl, rfl, by decide, zero_ffsync_refuses_unpushed sUnpushed "main" rfl rfl (by decide)⟩

/-- Worktree state for wt_update: auto-stash will trigger, the rewrite
succeeds, and the push then fails. -/
def stPushFail : WtState :=
  { currentBranch := none, worktreeExists := true,
    behindUpstream := 1, aheadUpstream := 1,
    hasUncommitted := true, featureTip := 5,
    rewriteFails := false, pushFails := true }

/-- C6 (counterexample): a wt_update run with the stash option that
auto-stashes, rebases successfully and then fails the push exits 1 with the
stash still unrestored: the trace holds the stash push but no stash pop. -/
theorem wt_update_push_failure_drops_stash :
    (wt_update stPushFail "x" "20240101-000000" true false false false false).outcome
        = Outcome.exit1 ∧
    (wt_update stPushFail "x" "20240101-000000" true false false false false).trace.filter
        isStashPushEff = [Eff.stashPush] ∧
    (wt_update stPushFail "x" "20240101-000000" true false false false false).trace.filter
        isStashPopEff = [] := by
  refine ⟨by decide, by decide, by decide⟩

/-- C6 (amended): when wt_update auto-stashes, the stash is restored exactly
on the full success path; both failure paths, the rebase or merge conflict
and the failed push, exit 1 leaving the stash in place. -/
theorem wt_update_stash_restore (st : WtState) (slug ts : String)
    (merge noBackup : Bool) (cl : List Char)
    (hv : validate_slug slug.toList = some cl)
    (hw : st.worktreeExists = true)
    (hb : st.behindUpstream ≠ 0)
    (hu : st.hasUncommitted = true) :
    (wt_update st slug ts true false merge noBackup false).trace.filter
        isStashPushEff = [Eff.stashPush] ∧
    (st.rewriteFails = false ∧ st.pushFails = false →
      (wt_update st slug ts true false merge noBackup false).outcome = Outcome.ok ∧
      (wt_update st slug ts true false merge noBackup false).trace.filter
          isStashPopEff = [Eff.stashPop]) ∧
    (st.rewriteFails = true ∨ st.pushFails = true →
      (wt_update st slug ts true false merge noBackup false).outcome = Outcome.exit1 ∧
      (wt_update st slug ts true false merge noBackup false).trace.filter
          isStashPopEff = []) := by
  unfold wt_update
  rw [hv]
  cases hm : merge <;> cases hrf : st.rewriteFails <;> cases hpf : st.pushFails <;>
    by_cases hnb : (noBackup = false ∧ 0 < st.aheadUpstream) <;>
    simp [hw, hb, hu, hm, hrf, hpf, hnb, isStashPushEff, isStashPopEff]

/-- Worktree state for wt_update: auto-stash triggers and both the rewrite
and the push succeed. -/
def stStashOk : WtState :=
  { currentBranch := none, worktreeExists := true,
    behindUpstream := 1, aheadUpstream := 1,
    hasUncommitted := true, featureTip := 5,
    rewriteFails := false, pushFails := false }

/-- C6 (witness): the restore statement applied on the all-success path. -/
theorem wt_update_stash_restore_witness :
    validate_slug ("x".toList) = some ("x".toList) ∧
    stStashOk.worktreeExists = true ∧
    stStashOk.behindUpstream = 1 ∧
    stStashOk.hasUncommitted = true ∧
    ((wt_update stStashOk "x" "20240101-000000" true false false false false).outcome
        = Outcome.ok ∧
     (wt_update stStashOk "x" "20240101-000000" true false false false false).trace.filter
        isStashPopEff = [Eff.stashPop]) := by
  refine ⟨by decide, rfl, rfl, rfl, ?_⟩
  exact (wt_update_stash_restore stStashOk "x" "20240101-000000" false false
    ("x".toList) (by decide) rfl (by decide) rfl).2.1 ⟨rfl, rfl⟩

/-- Worktree state for wt_update: one commit behind upstream, zero commits
ahead, clean tree. -/
def stNoAhead : WtState :=
  { currentBranch := none, worktreeExists := true,
    behindUpstream := 1, aheadUpstream := 0,
    hasUncommitted := false, featureTip := 5,
    rewriteFails := false, pushFails := false }

/-- C7 (counterexample): a wt_update run without the no-backup option that
is behind upstream but zero commits ahead reaches the rebase step with no
backup branch created: the backup step is additionally conditioned on a
positive ahead count. -/
theorem wt_update_zero_ahead_no_backup :
    (wt_update stNoAhead "x" "20240101-000000" false false false false false).trace.filter
        isCreateBranchEff = [] ∧
    Eff.rebaseOp ∈
      (wt_update stNoAhead "x" "20240101-000000" false false false false false).trace := by
  refine ⟨by decide, by decide⟩

/-- C7 (amended): every wt_update invocation that reaches the rebase or
merge step without the no-backup option AND with at least one commit ahead
of upstream/base creates exactly one branch, the backup branch pointing at
the pre-operation feature tip, before the rebase or merge is performed. -/
theorem wt_update_backup_before_rewrite (st : WtState) (slug ts : String)
    (stash merge : Bool) (cl : List Char)
    (hv : validate_slug slug.toList = some cl)
    (hw : st.worktreeExists = true)
    (hb : st.behindUpstream ≠ 0)
    (ha : 0 < st.aheadUpstream)
    (hs : st.hasUncommitted = false ∨ stash = true) :
    (wt_update st slug ts stash false merge false false).trace.filter isCreateBranchEff
      = [Eff.createBranch ("backup/" ++ String.mk (featBranch cl) ++ "-" ++ ts)
          st.featureTip] ∧
    Eff.createBranch ("backup/" ++ String.mk (featBranch cl) ++ "-" ++ ts) st.featureTip ∈
      ((wt_update st slug ts stash false merge false false).trace.takeWhile
        (fun e => !isRewriteEff e)) ∧
    (wt_update st slug ts stash false merge false false).trace.filter isRewriteEff
      = [if merge then Eff.mergeOp else Eff.rebaseOp] := by
  unfold wt_update
  rw [hv]
  rcases hs with hs | hs
  · cases hst : stash <;> cases hm : merge <;>
      cases hrf : st.rewriteFails <;> cases hpf : st.pushFails <;>
      simp [hw, hb, ha, hs, hm, hrf, hpf, isCreateBranchEff, isRewriteEff]
  · subst hs
    cases hu : st.hasUncommitted <;> cases hm : merge <;>
      cases hrf : st.rewriteFails <;> cases hpf : st.pushFails <;>
      simp [hw, hb, ha, hu, hm, hrf, hpf, isCreateBranchEff, isRewriteEff]

/-- Worktree state for wt_update: behind and ahead of upstream, clean tree,
everything succeeds. -/
def stUpd : WtState :=
  { currentBranch := none, worktreeExists := true,
    behindUpstream := 2, aheadUpstream := 2,
    hasUncommitted := false, featureTip := 7,
    rewriteFails := false, pushFails := false }

/-- C7 (witness): the backup-before-rewrite statement applied to the rebase
path on a branch two commits ahead. -/
theorem wt_update_backup_before_rewrite_witness :
    validate_slug ("x".toList) = some ("x".toList) ∧
    stUpd.worktreeExists = true ∧
    stUpd.behindUpstream = 2 ∧
    0 < stUpd.aheadUpstream ∧
    stUpd.hasUncommitted = false ∧
    ((wt_update stUpd "x" "20240101-000000" false false false false false).trace.filter
        isCreateBranchEff
      = [Eff.createBranch ("backup/" ++ String.mk (featBranch ("x".toList)) ++ "-"
          ++ "20240101-000000") stUpd.featureTip] ∧
     Eff.createBranch ("backup/" ++ String.mk (featBranch ("x".toList)) ++ "-"
          ++ "20240101-000000") stUpd.featureTip ∈
       ((wt_update stUpd "x" "20240101-000000" false false false false false).trace.takeWhile
         (fun e => !isRewriteEff e)) ∧
     (wt_update stUpd "x" "20240101-000000" false false false false false).trace.filter
        isRewriteEff = [if false then Eff.mergeOp else Eff.rebaseOp]) := by
  refine ⟨by decide, rfl, rfl, by decide, rfl, ?_⟩
  exact wt_update_backup_before_rewrite stUpd "x" "20240101-000000" false false
    ("x".toList) (by decide) rfl (by decide) (by decide) (Or.inl rfl)

/-- Clean state whose worktree removal fails while a local and a remote
branch both still exist; the working directory is outside the worktree. -/
def stCleanFail : CleanState :=
  { root := ["home", "u", "repo"], repoName := "repo",
    cwd := ["home", "u", "repo"],
    worktreeExists := true, localBranchExists := true, remoteBranchExists := true,
    worktreeDirty := false, ghAvailable := true, forkOwnerKnown := true,
    prExists := false,
    removeWorktreeFails := true, deleteLocalFails := false, deleteRemoteFails := false }

/-- C8 (counterexample): a confirmed wt_clean run whose worktree removal
fails aborts with the uncaught CalledProcessError of the check=True
execute call: the local and remote branch deletions and the prunes are
never attempted, so the steps are not failure-independent as claimed. -/
theorem wt_clean_removal_failure_aborts :
    (wt_clean stCleanFail "x" false false false true false).outcome = Outcome.raised ∧
    (wt_clean stCleanFail "x" false false false true false).trace
        = [Eff.removeWorktree false] := by
  refine ⟨by decide, by decide⟩

/-- C8 (amended): in a confirmed, gate-passing wt_clean run the branch
deletions and the prunes run with check=False, so each later step is
attempted independently of the exit status of the branch deletions (the
state quantifies over those statuses and the trace does not depend on
them); the worktree-removal step however runs with check=True, and its
failure raises and aborts every remaining step. -/
theorem wt_clean_step_independence (st : CleanState) (slug : String)
    (forceDelete wtForce : Bool) (cl : List Char)
    (hv : validate_slug slug.toList = some cl)
    (hdirty : st.worktreeDirty = false)
    (hcwd : ((st.cwd == worktreePathOf st cl)
              || pathInParents (worktreePathOf st cl) st.cwd) = false)
    (hwt : st.worktreeExists = true) :
    (st.removeWorktreeFails = true →
      (wt_clean st slug forceDelete wtForce false true false).outcome = Outcome.raised ∧
      (wt_clean st slug forceDelete wtForce false true false).trace
        = [Eff.removeWorktree wtForce]) ∧
    (st.removeWorktreeFails = false →
      (wt_clean st slug forceDelete wtForce false true false).outcome = Outcome.ok ∧
      (wt_clean st slug forceDelete wtForce false true false).trace
        = [Eff.removeWorktree wtForce]
            ++ (if st.localBranchExists then
                  [Eff.deleteLocalBranch (String.mk (featBranch cl)) forceDelete] else [])
            ++ (if st.remoteBranchExists then
                  [Eff.deleteRemoteBranch (String.mk (featBranch cl))] else [])
            ++ [Eff.pruneRemote, Eff.pruneWorktree]) := by
  unfold wt_clean
  rw [hv]
  cases hrm : st.removeWorktreeFails <;> cases hl : st.localBranchExists <;>
    cases hr : st.remoteBranchExists <;>
    simp [wt_clean_rest, hdirty, hcwd, hwt, hrm, hl, hr]

/-- Clean state whose worktree removal succeeds but whose local branch
deletion fails (ignored by check=False); both branches exist. -/
def stCleanOk : CleanState :=
  { root := ["home", "u", "repo"], repoName := "repo",
    cwd := ["home", "u", "repo"],
    worktreeExists := true, localBranchExists := true, remoteBranchExists := true,
    worktreeDirty := false, ghAvailable := true, forkOwnerKnown := true,
    prExists := false,
    removeWorktreeFails := false, deleteLocalFails := true, deleteRemoteFails := false }

/-- C8 (witness): the independence statement applied to a run whose local
branch deletion fails: every later step is still attempted. -/
theorem wt_clean_step_independence_witness :
    validate_slug ("x".toList) = some ("x".toList) ∧
    stCleanOk.worktreeDirty = false ∧
    stCleanOk.deleteLocalFails = true ∧
    stCleanOk.removeWorktreeFails = false ∧
    ((wt_clean stCleanOk "x" false false false true false).outcome = Outcome.ok ∧
     (wt_clean stCleanOk "x" false false false true false).trace
        = [Eff.removeWorktree false]
            ++ (if stCleanOk.localBranchExists then
                  [Eff.deleteLocalBranch (String.mk (featBranch ("x".toList))) false] else [])
            ++ (if stCleanOk.remoteBranchExists then
                  [Eff.deleteRemoteBranch (String.mk (featBranch ("x".toList)))] else [])
            ++ [Eff.pruneRemote, Eff.pruneWorktree]) := by
  refine ⟨by decide, rfl, rfl, rfl, ?_⟩
  exact (wt_clean_step_independence stCleanOk "x" false false ("x".toList)
    (by decide) rfl (by decide) rfl).2 rfl

/-- C9: every non-preview wt_clean invocation whose working directory
equals the target worktree path or lies strictly inside it exits 1 and
executes nothing: the trace is empty, so no worktree removal and no branch
deletion is performed, whatever the other flags. -/
theorem wt_clean_inside_worktree_refuses (st : CleanState) (slug : String)
    (forceDelete wtForce confirm dryRun : Bool) (cl : List Char)
    (hv : validate_slug slug.toList = some cl)
    (hin : ((st.cwd == worktreePathOf st cl)
             || pathInParents (worktreePathOf st cl) st.cwd) = true) :
    (wt_clean st slug forceDelete wtForce false confirm dryRun).outcome = Outcome.exit1 ∧
    (wt_clean st slug forceDelete wtForce false confirm dryRun).trace = [] := by
  unfold wt_clean
  rw [hv]
  by_cases h1 : ((st.worktreeExists && !dryRun && st.worktreeDirty) && !wtForce) = true
  · simp [h1]
  · by_cases h2 : ((st.ghAvailable && st.forkOwnerKnown && !dryRun && st.prExists)
        && !confirm) = true
    · simp [h1, h2]
    · simp [h1, h2, hin]

/-- Clean state invoked from a subdirectory of the target worktree: the
worktree path is a proper ancestor of the working directory. -/
def stInside : CleanState :=
  { root := ["home", "u", "repo"], repoName := "repo",
    cwd := ["home", "u", "wt", "repo", "x", "sub"],
    worktreeExists := true, localBranchExists := true, remoteBranchExists := true,
    worktreeDirty := false, ghAvailable := false, forkOwnerKnown := false,
    prExists := false,
    removeWorktreeFails := false, deleteLocalFails := false, deleteRemoteFails := false }

/-- C9 (witness): the refusal applied to the nested-subdirectory case. -/
theorem wt_clean_inside_worktree_refuses_witness :
    validate_slug ("x".toList) = some ("x".toList) ∧
    ((stInside.cwd == worktreePathOf stInside ("x".toList))
       || pathInParents (worktreePathOf stInside ("x".toList)) stInside.cwd) = true ∧
    ((wt_clean stInside "x" false false false true false).outcome = Outcome.exit1 ∧
     (wt_clean stInside "x" false false false true false).trace = []) :=
  ⟨by decide, by decide,
    wt_clean_inside_worktree_refuses stInside "x" false false true false
      ("x".toList) (by decide) (by decide)⟩

end Worktreeflow
